import Mathlib

/-!
# Shallow embedding of `server.js`

This file embeds the request handlers of the Express server in `server.js`
as pure Lean functions and proves the spec's claims about them.

Modelling conventions:
* Database tables (`users`, `images`, `activities`) are lists of row
  structures; queries are list filters.
* `supabase-js` calls are modelled by their documented result shapes.  In
  particular `.select(...).single()` yields a PostgREST `PGRST116` error
  whenever the filtered row set does not have exactly one element, and the
  data component is `none` in that case (`singleResult` below).
* Fallible effects whose outcome is decided outside the source (bcrypt
  comparison, JWT signing and verification, storage uploads, network calls,
  insert/delete failures) are oracle parameters of the handler functions.
* Strings from JS are Lean `String`s; a missing (`undefined`) request-body
  string field is modelled as `""`, matching JS truthiness checks such as
  `if (!email)` which conflate `undefined` and `""`.  All character-level
  operations are written over `String.data` so that they evaluate.
* An HTTP response is a status code plus a typed JSON body; each endpoint
  has its own body type whose constructors carry exactly the fields the
  handler puts in the JSON object.
-/

/-- HTTP response: status code plus the JSON body of type `β`. -/
structure Resp (β : Type) where
  status : Nat
  body : β
deriving DecidableEq

/-- ASCII uppercase test: the regex character class `/[A-Z]/`. -/
def isUpperAscii (c : Char) : Bool := 'A' ≤ c && c ≤ 'Z'

/-- The fixed special-character class of the password regex: exclamation,
at, hash, dollar, percent, caret, ampersand, star, parentheses, comma, dot,
question mark, double quote, colon, curly braces, pipe, angle brackets. -/
def specialChars : List Char :=
  ['!', '@', '#', '$', '%', '^', '&', '*', '(', ')', ',', '.', '?', '\"',
   ':', '\x7b', '\x7d', '|', '<', '>']

/-- Error message for the length rule (from `server.js`). -/
def msgMinLength : String := "Mật khẩu phải có ít nhất 8 ký tự"

/-- Error message for the uppercase rule (from `server.js`). -/
def msgUppercase : String := "Mật khẩu phải có ít nhất 1 chữ cái viết hoa"

/-- Error message for the special-character rule (from `server.js`). -/
def msgSpecialChar : String := "Mật khẩu phải có ít nhất 1 ký tự đặc biệt (!@#$%^&*)"

/-- The `errors` object of `validatePassword`: each field is the rule's
message when the rule failed, `null` (`none`) otherwise. -/
structure PasswordErrors where
  minLength : Option String
  hasUppercase : Option String
  hasSpecialChar : Option String
deriving DecidableEq

/-- Result shape of `validatePassword`. -/
structure PasswordValidation where
  isValid : Bool
  errors : PasswordErrors
deriving DecidableEq

/-- `validatePassword` from `server.js` lines 27-40. -/
def validatePassword (password : String) : PasswordValidation :=
  let minLength : Bool := 8 ≤ password.length
  let hasUppercase : Bool := password.data.any isUpperAscii
  let hasSpecialChar : Bool := password.data.any (fun c => specialChars.contains c)
  { isValid := minLength && hasUppercase && hasSpecialChar
    errors :=
      { minLength := if minLength then none else some msgMinLength
        hasUppercase := if hasUppercase then none else some msgUppercase
        hasSpecialChar := if hasSpecialChar then none else some msgSpecialChar } }

/-- A row of the `users` table. -/
structure UserRow where
  id : Nat
  full_name : String
  email : String
  hashed_password : String
  bio : String
  avatar_url : String
  created_at : Nat
  updated_at : Nat
deriving DecidableEq

/-- A row of the `images` table. -/
structure ImageRow where
  id : Nat
  user_id : Nat
  prompt : String
  image_url : String
  file_path : String
  created_at : Nat
deriving DecidableEq

/-- A row of the `activities` table.  `additional_data` is kept as an
opaque string standing for the JSON map. -/
structure ActivityRow where
  id : Nat
  user_id : Nat
  action : String
  image_id : Option Nat
  timestamp : Nat
  additional_data : String
deriving DecidableEq

/-- Result shape `{ data, error }` of `await supabase.from(t).select(...)
.eq(...).single()`: PostgREST answers with the row when exactly one row
matches the filters, and with a `PGRST116` error (and `data: null`)
otherwise. -/
def singleResult (rows : List α) (p : α → Bool) : Option α × Option String :=
  match rows.filter p with
  | [r] => (some r, none)
  | _ => (none, some "PGRST116")

/-- Body of the `POST /api/auth/login` response. -/
inductive LoginBody
  | err (error : String)
  | ok (token : String) (id : Nat) (fullName : String) (email : String)
      (avatarUrl : String)
deriving DecidableEq

/-- Handler of `POST /api/auth/login` (`server.js` lines 89-117).
`compare` is the bcrypt comparison oracle, `sign` the JWT signing oracle
(applied to the user id and email embedded in the token). -/
def login (db : List UserRow) (compare : String → String → Bool)
    (sign : Nat → String → String) (email password : String) : Resp LoginBody :=
  if email = "" ∨ password = "" then
    ⟨400, .err "Email and password are required."⟩
  else
    match singleResult db (fun u => u.email == email) with
    | (_, some _) => ⟨401, .err "Invalid credentials."⟩
    | (none, none) => ⟨401, .err "Invalid credentials."⟩
    | (some user, none) =>
      if compare password user.hashed_password then
        ⟨200, .ok (sign user.id user.email) user.id user.full_name user.email
          user.avatar_url⟩
      else
        ⟨401, .err "Invalid credentials."⟩

/-- Body of the `POST /api/auth/register` response. -/
inductive RegisterBody
  | err (error : String)
  | errDetails (error : String) (details : List String)
  | ok (message : String) (id : Nat) (email : String) (fullName : String)
deriving DecidableEq

/-- `Object.values(passwordValidation.errors).filter(Boolean)`. -/
def failedMessages (v : PasswordValidation) : List String :=
  [v.errors.minLength, v.errors.hasUppercase, v.errors.hasSpecialChar].filterMap id

/-- Handler of `POST /api/auth/register` (`server.js` lines 45-86).
`insertErr` is the outcome of the insert call, `newId` the id the database
assigns to the inserted row, `hash` the bcrypt hashing oracle, `now` the
creation timestamp.  Returns the response and the new `users` table. -/
def register (db : List UserRow) (insertErr : Option String) (newId : Nat)
    (hash : String → String) (now : Nat) (fullName email password : String) :
    Resp RegisterBody × List UserRow :=
  if email = "" ∨ password = "" ∨ fullName = "" then
    (⟨400, .err "Vui lòng cung cấp đầy đủ họ tên, email và mật khẩu."⟩, db)
  else if (validatePassword password).isValid = false then
    (⟨400, .errDetails "Mật khẩu không đáp ứng yêu cầu bảo mật"
      (failedMessages (validatePassword password))⟩, db)
  else
    match (singleResult db (fun u => u.email == email)).1 with
    | some _ => (⟨400, .err "Email đã tồn tại trong hệ thống."⟩, db)
    | none =>
      match insertErr with
      | some _ => (⟨500, .err "Lỗi hệ thống trong quá trình đăng ký."⟩, db)
      | none =>
        (⟨201, .ok "Tài khoản đã được tạo thành công!" newId email fullName⟩,
          db ++ [⟨newId, fullName, email, hash password, "", "", now, now⟩])

/-- The claims object carried by a JWT (`jwt.sign({ userId, email }, ...)`). -/
structure JwtClaims where
  userId : Nat
  email : String
deriving DecidableEq

/-- Outcome of an Express middleware: either it sends a rejection response
itself, or it calls `next()` after attaching the decoded user to `req`. -/
inductive ProtectOutcome
  | reject (status : Nat) (error : String)
  | proceed (user : JwtClaims)
deriving DecidableEq

/-- `String.prototype.split(sep)` for a single-character separator, over
char lists. -/
def splitOnChar (c : Char) : List Char → List (List Char)
  | [] => [[]]
  | a :: t =>
    let r := splitOnChar c t
    if a = c then [] :: r
    else
      match r with
      | [] => [[a]]
      | h :: t2 => (a :: h) :: t2

/-- `authHeader.split(' ')[1]`: the token part of a bearer header. -/
def bearerToken (authHeader : String) : String :=
  ⟨(splitOnChar ' ' authHeader.data).getD 1 []⟩

/-- `s.startsWith(pre)`, over char lists so that it evaluates. -/
def jsStartsWith (s pre : String) : Bool := pre.data.isPrefixOf s.data

/-- The `protect` middleware (`server.js` lines 121-134).  `verify` is the
`jwt.verify` oracle: `none` models a thrown verification error (bad
signature, expired token, malformed token), `some claims` a successful
verification. -/
def protect (verify : String → Option JwtClaims) (authHeader : Option String) :
    ProtectOutcome :=
  match authHeader with
  | none => .reject 401 "Not authenticated, no token provided."
  | some h =>
    if jsStartsWith h "Bearer " = false then
      .reject 401 "Not authenticated, no token provided."
    else
      match verify (bearerToken h) with
      | some decoded => .proceed decoded
      | none => .reject 401 "Not authenticated, token is invalid."

/-- `logActivity` (`server.js` lines 362-388).  `insertOutcome` is the
outcome of the `activities` insert: `.error e` models the awaited promise
rejecting (e.g. network failure or missing table throwing), `.ok (some e)`
a returned `{ error }` object (e.g. `relation "activities" does not
exist`), `.ok none` a successful insert.  Returns the new `activities`
table and the exception propagated to the caller — which is always `none`,
because both the `if (error)` branch and the `catch` branch only write to
the console. -/
def logActivity (acts : List ActivityRow)
    (insertOutcome : Except String (Option String)) (newId userId : Nat)
    (action : String) (imageId : Option Nat) (now : Nat)
    (additionalData : String) : List ActivityRow × Option String :=
  match insertOutcome with
  | .error _ => (acts, none)
  | .ok (some _) => (acts, none)
  | .ok none => (acts ++ [⟨newId, userId, action, imageId, now, additionalData⟩], none)

/-- `prompt.substring(0, n)`. -/
def jsSubstring0 (n : Nat) (s : String) : String := ⟨s.data.take n⟩

/-- Body of the `POST /api/generate-image` response. -/
inductive GenerateBody
  | badRequest (error : String)
  | ok (success : Bool) (imageUrl : String) (imageId : Nat) (message : String)
  | err (error : String) (details : String)
deriving DecidableEq

/-- Handler of `POST /api/generate-image` (`server.js` lines 394-497).
Oracles: `colabOk`/`colabStatus` for the external generator HTTP call,
`uploadErr` for the storage upload, `publicUrl` for `getPublicUrl`,
`dbInsert` for the `images` insert (yielding the new row id),
`activityInsert` for the activity-log insert inside `logActivity`.
Returns the response, the new `images` table and the new `activities`
table. -/
def generateImage (images : List ImageRow) (acts : List ActivityRow)
    (colabOk : Bool) (colabStatus : Nat) (uploadErr : Option String)
    (publicUrl : String → String) (dbInsert : Except String Nat)
    (activityInsert : Except String (Option String)) (activityId now : Nat)
    (userId : Nat) (prompt : String) :
    Resp GenerateBody × List ImageRow × List ActivityRow :=
  if prompt = "" then (⟨400, .badRequest "Prompt is required"⟩, images, acts)
  else if colabOk = false then
    (⟨500, .err "Failed to generate image"
      ("Colab API error: " ++ toString colabStatus)⟩, images, acts)
  else
    match uploadErr with
    | some e => (⟨500, .err "Failed to generate image" e⟩, images, acts)
    | none =>
      let filePath := "generated/" ++ toString userId ++ "_" ++ toString now
        ++ "_generated.png"
      let imageUrl := publicUrl filePath
      match dbInsert with
      | .error e => (⟨500, .err "Failed to generate image" e⟩, images, acts)
      | .ok newId =>
        let images2 := images ++ [⟨newId, userId, prompt, imageUrl, filePath, now⟩]
        match logActivity acts activityInsert activityId userId "generate"
            (some newId) now (jsSubstring0 100 prompt) with
        | (acts2, some e) =>
          (⟨500, .err "Failed to generate image" e⟩, images2, acts2)
        | (acts2, none) =>
          (⟨200, .ok true imageUrl newId "Image generated successfully"⟩,
            images2, acts2)

/-- Body of the `DELETE /api/images/:imageId` response. -/
inductive DeleteBody
  | notFound (success : Bool) (error : String)
  | ok (success : Bool) (message : String)
  | err (success : Bool) (error : String) (details : String)
deriving DecidableEq

/-- Handler of `DELETE /api/images/:imageId` (`server.js` lines 511-594).
The ownership check is the query filter `eq('id', imageId).eq('user_id',
userId).single()`.  `storageErr` is the outcome of the storage removal
(only logged, never fatal), `dbDeleteErr` of the row deletion,
`activityInsert` of the activity-log insert.  Returns the response, the
new `images` table and the new `activities` table. -/
def deleteImage (images : List ImageRow) (acts : List ActivityRow)
    (storageErr : Option String) (dbDeleteErr : Option String)
    (activityInsert : Except String (Option String)) (activityId now : Nat)
    (userId imageId : Nat) :
    Resp DeleteBody × List ImageRow × List ActivityRow :=
  match singleResult images (fun r => r.id == imageId && r.user_id == userId) with
  | (_, some e) =>
    (⟨500, .err false "Lỗi hệ thống trong quá trình xóa hình ảnh." e⟩,
      images, acts)
  | (none, none) =>
    (⟨404, .notFound false "Hình ảnh không tồn tại hoặc không thuộc về bạn."⟩,
      images, acts)
  | (some image, none) =>
    match dbDeleteErr with
    | some e =>
      (⟨500, .err false "Lỗi hệ thống trong quá trình xóa hình ảnh." e⟩,
        images, acts)
    | none =>
      let images2 := images.filter (fun r => !(r.id == imageId && r.user_id == userId))
      match logActivity acts activityInsert activityId userId "delete"
          (some imageId) now image.image_url with
      | (acts2, some e) =>
        (⟨500, .err false "Lỗi hệ thống trong quá trình xóa hình ảnh." e⟩,
          images2, acts2)
      | (acts2, none) =>
        (⟨200, .ok true "Hình ảnh đã được xóa thành công!"⟩, images2, acts2)

/-- `Math.ceil(a / b)`: the exact quotient of the two counts rounded up
(faithful to the source for positive `b`; the handlers only divide counts
by the `limit` query parameter). -/
def jsCeilDiv (a b : Nat) : Nat :=
  if a % b = 0 then a / b else a / b + 1

/-- Pagination object of `GET /api/admin/users`. -/
structure AdminPagination where
  currentPage : Nat
  totalPages : Nat
  totalUsers : Nat
  limit : Nat
deriving DecidableEq

/-- Columns of the `users` table selected by the admin listing. -/
structure PubUser where
  id : Nat
  full_name : String
  email : String
  bio : String
  avatar_url : String
  created_at : Nat
  updated_at : Nat
deriving DecidableEq

/-- Body of the `GET /api/admin/users` response. -/
inductive AdminUsersBody
  | ok (users : List PubUser) (pagination : AdminPagination)
  | err (error : String) (details : String)
deriving DecidableEq

/-- Case folding of a char list (`ilike` is case-insensitive). -/
def toLowerList (l : List Char) : List Char := l.map Char.toLower

/-- Contiguous-sublist test: `needle` occurs inside `hay`. -/
def listInfix (needle : List Char) : List Char → Bool
  | [] => needle.isEmpty
  | a :: t => needle.isPrefixOf (a :: t) || listInfix needle t

/-- `column ilike '%needle%'`: case-insensitive substring match. -/
def ilikeContains (hay needle : String) : Bool :=
  listInfix (toLowerList needle.data) (toLowerList hay.data)

/-- The search filter `or(full_name.ilike.%s%,email.ilike.%s%)`. -/
def matchesSearch (search : String) (u : UserRow) : Bool :=
  ilikeContains u.full_name search || ilikeContains u.email search

/-- Insert into a list kept sorted by descending key. -/
def insertDescBy (key : α → Nat) (a : α) : List α → List α
  | [] => [a]
  | b :: t => if key b ≤ key a then a :: b :: t else b :: insertDescBy key a t

/-- Sort by descending key (`order(col, { ascending: false })`). -/
def sortDescBy (key : α → Nat) (l : List α) : List α :=
  l.foldr (insertDescBy key) []

/-- Handler of `GET /api/admin/users` (`server.js` lines 173-226), after
the admin gate.  `listErr` is the outcome of the listing query; the
unconditional exact-count query (whose error is discarded by the code) is
modelled as the row count of the table.  `search = ""` models an absent
search parameter (`if (search)` is a truthiness test). -/
def adminUsers (usersTable : List UserRow) (listErr : Option String)
    (page limit : Nat) (search : String) : Resp AdminUsersBody :=
  let offset := (page - 1) * limit
  match listErr with
  | some e => ⟨500, .err "Failed to fetch users" e⟩
  | none =>
    let filtered := if search = "" then usersTable
      else usersTable.filter (matchesSearch search)
    let ordered := sortDescBy (fun u => u.created_at) filtered
    let pageRows := (ordered.drop offset).take limit
    let users := pageRows.map (fun u =>
      PubUser.mk u.id u.full_name u.email u.bio u.avatar_url u.created_at
        u.updated_at)
    let totalUsers := usersTable.length
    ⟨200, .ok users ⟨page, jsCeilDiv totalUsers limit, totalUsers, limit⟩⟩

/-- Pagination object of `GET /api/activities`. -/
structure ActivityPagination where
  currentPage : Nat
  totalPages : Nat
  totalActivities : Nat
  limit : Nat
deriving DecidableEq

/-- The minimal image fields joined into an activity item. -/
structure ImageInfo where
  id : Nat
  prompt : String
  image_url : String
deriving DecidableEq

/-- An item of the `GET /api/activities` listing. -/
structure ActivityView where
  id : Nat
  action : String
  image_id : Option Nat
  timestamp : Nat
  additional_data : String
  images : Option ImageInfo
deriving DecidableEq

/-- Body of the `GET /api/activities` response. -/
inductive ActivitiesBody
  | ok (activities : List ActivityView) (pagination : ActivityPagination)
  | err (error : String) (details : String) (suggestion : String)
deriving DecidableEq

/-- The embedded-resource join `images ( id, prompt, image_url )`. -/
def joinImage (imagesTable : List ImageRow) (a : ActivityRow) : ActivityView :=
  { id := a.id, action := a.action, image_id := a.image_id
    timestamp := a.timestamp, additional_data := a.additional_data
    images := a.image_id.bind (fun iid =>
      (imagesTable.find? (fun r => r.id == iid)).map (fun r =>
        ⟨r.id, r.prompt, r.image_url⟩)) }

/-- Handler of `GET /api/activities` (`server.js` lines 772-859), after
`protect`.  `tableErr` is the outcome of the initial probe query for the
`activities` table; `action = ""` models an absent action filter.  Both
the listing query and the count query filter on `user_id = userId`. -/
def getActivities (activitiesTable : List ActivityRow)
    (imagesTable : List ImageRow) (tableErr : Option String) (userId : Nat)
    (page limit : Nat) (action : String) : Resp ActivitiesBody :=
  let offset := (page - 1) * limit
  match tableErr with
  | some _ =>
    ⟨500, .err "Activities table not found"
      "Please create the activities table first by running the SQL script in create_activity_table.sql"
      "Go to Supabase SQL Editor and run the create_activity_table.sql script"⟩
  | none =>
    let mine := activitiesTable.filter (fun a => a.user_id == userId)
    let filtered := if action = "" then mine
      else mine.filter (fun a => a.action == action)
    let ordered := sortDescBy (fun a => a.timestamp) filtered
    let pageRows := (ordered.drop offset).take limit
    let views := pageRows.map (joinImage imagesTable)
    let totalActivities := filtered.length
    ⟨200, .ok views
      ⟨page, jsCeilDiv totalActivities limit, totalActivities, limit⟩⟩

/-- Body of the `POST /api/activities/log` response. -/
inductive LogBody
  | badRequest (error : String)
  | ok (success : Bool) (message : String)
  | err (error : String) (details : String)
deriving DecidableEq

/-- Handler of `POST /api/activities/log` (`server.js` lines 862-883),
after `protect`.  `action = ""` models a missing or empty `action` field
(`if (!action)`).  The 500 branch corresponds to the handler's `catch`;
it fires only if `logActivity` propagates an exception. -/
def postActivityLog (acts : List ActivityRow)
    (insertOutcome : Except String (Option String)) (newId now userId : Nat)
    (action : String) (imageId : Option Nat) (additionalData : String) :
    Resp LogBody × List ActivityRow :=
  if action = "" then (⟨400, .badRequest "Action is required"⟩, acts)
  else
    match logActivity acts insertOutcome newId userId action imageId now
        additionalData with
    | (acts2, some e) => (⟨500, .err "Failed to log activity" e⟩, acts2)
    | (acts2, none) =>
      (⟨200, .ok true "Activity logged successfully"⟩, acts2)

/-! ## Theorems -/

/-- C1: `validatePassword` reports a password valid iff its length is at
least 8, it contains an uppercase ASCII letter, and it contains a
character of the fixed special set; each failing rule contributes its own
error message, and the three messages are pairwise distinct. -/
theorem C1_validatePassword_spec (p : String) :
    ((validatePassword p).isValid = true ↔
      (8 ≤ p.length ∧ (∃ c ∈ p.data, 'A' ≤ c ∧ c ≤ 'Z')
        ∧ (∃ c ∈ p.data, c ∈ specialChars)))
  ∧ ((validatePassword p).errors.minLength
      = if 8 ≤ p.length then none else some msgMinLength)
  ∧ ((validatePassword p).errors.hasUppercase
      = if ∃ c ∈ p.data, 'A' ≤ c ∧ c ≤ 'Z' then none else some msgUppercase)
  ∧ ((validatePassword p).errors.hasSpecialChar
      = if ∃ c ∈ p.data, c ∈ specialChars then none else some msgSpecialChar)
  ∧ msgMinLength ≠ msgUppercase ∧ msgMinLength ≠ msgSpecialChar
  ∧ msgUppercase ≠ msgSpecialChar := by
  refine ⟨?_, ?_, ?_, ?_, by decide, by decide, by decide⟩
  · simp [validatePassword, isUpperAscii, List.any_eq_true, and_assoc]
  · simp [validatePassword]
  · simp [validatePassword, isUpperAscii, List.any_eq_true]
  · simp [validatePassword]

/-- C2: the two login failure runs — email absent from the `users` table,
and email present with a non-matching password — produce the very same
response: status 401 with the generic `Invalid credentials.` body. -/
theorem C2_login_no_enumeration (db1 db2 : List UserRow)
    (compare : String → String → Bool) (sign : Nat → String → String)
    (e1 p1 e2 p2 : String) (u : UserRow)
    (he1 : e1 ≠ "") (hp1 : p1 ≠ "") (he2 : e2 ≠ "") (hp2 : p2 ≠ "")
    (hmiss : db1.filter (fun w => w.email == e1) = [])
    (hhit : db2.filter (fun w => w.email == e2) = [u])
    (hcmp : compare p2 u.hashed_password = false) :
    login db1 compare sign e1 p1 = login db2 compare sign e2 p2
    ∧ (login db1 compare sign e1 p1).status = 401
    ∧ (login db1 compare sign e1 p1).body = LoginBody.err "Invalid credentials." := by
  have hm : singleResult db1 (fun w => w.email == e1) = (none, some "PGRST116") := by
    unfold singleResult; rw [hmiss]
  have hh : singleResult db2 (fun w => w.email == e2) = (some u, none) := by
    unfold singleResult; rw [hhit]
  refine ⟨?_, ?_, ?_⟩ <;> simp [login, hm, hh, hcmp, he1, hp1, he2, hp2]

/-- Witness for C2: an unknown email against an empty table and a known
email with a rejected password give byte-identical 401 responses. -/
theorem C2_login_no_enumeration_witness :
    login [] (fun _ _ => false) (fun _ _ => "tok") "x@y.z" "pw"
      = login [UserRow.mk 1 "Alice" "a@b.c" "H" "" "" 0 0]
        (fun _ _ => false) (fun _ _ => "tok") "a@b.c" "pw"
  ∧ (login [] (fun _ _ => false) (fun _ _ => "tok") "x@y.z" "pw").status = 401
  ∧ (login [] (fun _ _ => false) (fun _ _ => "tok") "x@y.z" "pw").body
      = LoginBody.err "Invalid credentials." := by
  exact C2_login_no_enumeration [] [UserRow.mk 1 "Alice" "a@b.c" "H" "" "" 0 0]
    (fun _ _ => false) (fun _ _ => "tok") "x@y.z" "pw" "a@b.c" "pw"
    (UserRow.mk 1 "Alice" "a@b.c" "H" "" "" 0 0)
    (by decide) (by decide) (by decide) (by decide) rfl (by decide) rfl

/-- C3: evaluating the delete handler at a miss.  With the `images` table
holding only a row with id 1 owned by user 3, user 2 deleting image 1
(wrong owner), and user 2 deleting image 7 from an empty table
(nonexistent id), both runs answer 500 — not the 404 the spec states —
because `.single()` yields a `PGRST116` error for an empty row set and the
handler throws on `fetchError` before ever reaching its own 404 branch.
The table row is left unchanged, as the claim states. -/
theorem C3_delete_miss_responds_500 :
    ((deleteImage [⟨1, 3, "p", "u", "f", 0⟩] [] none none (Except.ok none)
        0 0 2 1).1.status = 500
      ∧ (deleteImage [⟨1, 3, "p", "u", "f", 0⟩] [] none none (Except.ok none)
        0 0 2 1).1.status ≠ 404
      ∧ (deleteImage [⟨1, 3, "p", "u", "f", 0⟩] [] none none (Except.ok none)
        0 0 2 1).2.1 = [⟨1, 3, "p", "u", "f", 0⟩])
  ∧ ((deleteImage [] [] none none (Except.ok none) 0 0 2 7).1.status = 500
      ∧ (deleteImage [] [] none none (Except.ok none) 0 0 2 7).1.status ≠ 404
      ∧ (deleteImage [] [] none none (Except.ok none) 0 0 2 7).2.1 = []) := by
  decide

/-- `Math.ceil(a / b)` agrees with the natural-number ceiling formula
`(a + b - 1) / b` for positive `b`. -/
theorem jsCeilDiv_eq (a b : Nat) (hb : 0 < b) :
    jsCeilDiv a b = (a + b - 1) / b := by
  unfold jsCeilDiv
  have hdm := Nat.div_add_mod a b
  have hlt : a % b < b := Nat.mod_lt a hb
  by_cases h : a % b = 0
  · simp only [h, if_pos]
    have h1 : a + b - 1 = b * (a / b) + (b - 1) := by omega
    rw [h1, Nat.mul_add_div hb]
    rw [show (b - 1) / b = 0 from Nat.div_eq_of_lt (by omega)]
    simp
  · simp only [h, if_neg, ite_false]
    have h1 : a + b - 1 = b * (a / b + 1) + (a % b - 1) := by
      have h2 : b * (a / b + 1) = b * (a / b) + b := by ring
      omega
    rw [h1, Nat.mul_add_div hb]
    rw [show (a % b - 1) / b = 0 from Nat.div_eq_of_lt (by omega)]

/-- C4: in every success response of `GET /api/admin/users` and
`GET /api/activities` with a positive limit, the reported `totalPages`
equals the ceiling of the reported total count divided by the limit. -/
theorem C4_pagination_totalPages_ceil (usersTable : List UserRow)
    (activitiesTable : List ActivityRow) (imagesTable : List ImageRow)
    (userId page limit : Nat) (search actionFilter : String)
    (hlim : 0 < limit) :
    (∀ us pag, (adminUsers usersTable none page limit search).body
        = AdminUsersBody.ok us pag →
        pag.totalPages = (pag.totalUsers + limit - 1) / limit)
  ∧ (∀ vs pag, (getActivities activitiesTable imagesTable none userId page
        limit actionFilter).body = ActivitiesBody.ok vs pag →
        pag.totalPages = (pag.totalActivities + limit - 1) / limit) := by
  constructor
  · intro us pag h
    simp only [adminUsers, AdminUsersBody.ok.injEq] at h
    rw [← h.2]
    exact jsCeilDiv_eq _ _ hlim
  · intro vs pag h
    simp only [getActivities, ActivitiesBody.ok.injEq] at h
    rw [← h.2]
    exact jsCeilDiv_eq _ _ hlim

/-- Witness for C4 at a one-user table and a two-activity table with
limit 10. -/
theorem C4_pagination_totalPages_ceil_witness :
    (AdminPagination.mk 1 1 1 10).totalPages
      = ((AdminPagination.mk 1 1 1 10).totalUsers + 10 - 1) / 10
  ∧ (ActivityPagination.mk 1 1 2 10).totalPages
      = ((ActivityPagination.mk 1 1 2 10).totalActivities + 10 - 1) / 10 := by
  constructor
  · exact (C4_pagination_totalPages_ceil [⟨1, "Alice", "a@b.c", "H", "", "", 0, 0⟩]
      [] [] 0 1 10 "" "" (by decide)).1
      [⟨1, "Alice", "a@b.c", "", "", 0, 0⟩] ⟨1, 1, 1, 10⟩ (by decide)
  · exact (C4_pagination_totalPages_ceil []
      [⟨1, 5, "generate", none, 2, ""⟩, ⟨2, 5, "delete", none, 1, ""⟩] [] 5 1 10
      "" "" (by decide)).2
      [⟨1, "generate", none, 2, "", none⟩, ⟨2, "delete", none, 1, "", none⟩]
      ⟨1, 1, 2, 10⟩ (by decide)

/-- C5: `protect` rejects with 401 whenever the Authorization header is
absent, does not start with `Bearer `, or carries a token that fails
verification — without the handler running (the outcome is `reject`, which
carries no handler data); with a valid token it proceeds, attaching
exactly the verified claims (hence the token's `userId`) to the request. -/
theorem C5_protect_gate (verify : String → Option JwtClaims)
    (hd : Option String) :
    ((hd = none
        ∨ (∃ s, hd = some s ∧ jsStartsWith s "Bearer " = false)
        ∨ (∃ s, hd = some s ∧ jsStartsWith s "Bearer " = true
            ∧ verify (bearerToken s) = none)) →
      ∃ msg, protect verify hd = ProtectOutcome.reject 401 msg)
  ∧ (∀ s c, hd = some s → jsStartsWith s "Bearer " = true →
      verify (bearerToken s) = some c →
      protect verify hd = ProtectOutcome.proceed c) := by
  constructor
  · rintro (rfl | ⟨s, rfl, hs⟩ | ⟨s, rfl, hs, hv⟩)
    · exact ⟨_, rfl⟩
    · exact ⟨"Not authenticated, no token provided.", by simp [protect, hs]⟩
    · exact ⟨"Not authenticated, token is invalid.", by simp [protect, hs, hv]⟩
  · rintro s c rfl hs hv
    simp [protect, hs, hv]

/-- Witness for C5: a verifier accepting exactly the token `tok` as user 7
proceeds on `Bearer tok` and rejects a missing header with 401. -/
theorem C5_protect_gate_witness :
    protect (fun t => if t = "tok" then some ⟨7, "u@x.y"⟩ else none)
        (some "Bearer tok") = ProtectOutcome.proceed ⟨7, "u@x.y"⟩
  ∧ ∃ msg, protect (fun t => if t = "tok" then some ⟨7, "u@x.y"⟩ else none)
        none = ProtectOutcome.reject 401 msg := by
  constructor
  · exact (C5_protect_gate (fun t => if t = "tok" then some ⟨7, "u@x.y"⟩ else none)
      (some "Bearer tok")).2 "Bearer tok" ⟨7, "u@x.y"⟩ rfl (by decide) (by decide)
  · exact (C5_protect_gate (fun t => if t = "tok" then some ⟨7, "u@x.y"⟩ else none)
      none).1 (Or.inl rfl)

/-- C6: from a `users` table with no row for email `e`, a first valid
registration succeeds with 201 and leaves exactly one row with that email;
any second registration attempt with the same email — whatever its name,
password, or insert outcome — answers 400 and leaves the table unchanged,
so registration preserves email uniqueness. -/
theorem C6_register_unique_email (db : List UserRow) (hash : String → String)
    (id1 now1 : Nat) (fn e pw : String) (hfn : fn ≠ "") (he : e ≠ "")
    (hvalid : (validatePassword pw).isValid = true)
    (h0 : db.filter (fun u => u.email == e) = []) :
    (register db none id1 hash now1 fn e pw).1.status = 201
  ∧ ((register db none id1 hash now1 fn e pw).2.filter
      (fun u => u.email == e)).length = 1
  ∧ ∀ ins2 id2 now2 fn2 pw2,
      (register (register db none id1 hash now1 fn e pw).2 ins2 id2 hash now2
        fn2 e pw2).1.status = 400
    ∧ (register (register db none id1 hash now1 fn e pw).2 ins2 id2 hash now2
        fn2 e pw2).2 = (register db none id1 hash now1 fn e pw).2 := by
  have hpw : pw ≠ "" := by
    intro hcon
    rw [hcon] at hvalid
    exact absurd hvalid (by decide)
  have hsingle : (singleResult db (fun u => u.email == e)).1 = none := by
    simp [singleResult, h0]
  have hr1 : register db none id1 hash now1 fn e pw
      = (⟨201, .ok "Tài khoản đã được tạo thành công!" id1 e fn⟩,
        db ++ [⟨id1, fn, e, hash pw, "", "", now1, now1⟩]) := by
    simp [register, he, hpw, hfn, hvalid, hsingle]
  have hfilter : ((db ++ [UserRow.mk id1 fn e (hash pw) "" "" now1 now1]).filter
      (fun u => u.email == e)) = [UserRow.mk id1 fn e (hash pw) "" "" now1 now1] := by
    simp [h0]
  refine ⟨by rw [hr1], by rw [hr1]; rw [hfilter]; rfl, ?_⟩
  intro ins2 id2 now2 fn2 pw2
  rw [hr1]
  by_cases hfn2 : fn2 = ""
  · simp [register, hfn2]
  · by_cases hpw2 : pw2 = ""
    · simp [register, hpw2]
    · by_cases hv2 : (validatePassword pw2).isValid = false
      · simp [register, he, hpw2, hfn2, hv2]
      · simp only [Bool.not_eq_false] at hv2
        simp [register, singleResult, he, hpw2, hfn2, hv2, h0]

/-- Witness for C6: registering `a@b.c` on an empty table succeeds; a
second registration with the same email answers 400 and does not change
the table. -/
theorem C6_register_unique_email_witness :
    (register [] none 1 (fun s => s) 0 "Alice" "a@b.c" "Password.1").1.status = 201
  ∧ ((register [] none 1 (fun s => s) 0 "Alice" "a@b.c" "Password.1").2.filter
      (fun u => u.email == "a@b.c")).length = 1
  ∧ (register (register [] none 1 (fun s => s) 0 "Alice" "a@b.c" "Password.1").2
      none 2 (fun s => s) 1 "Bob" "a@b.c" "Xyzabc.A1").1.status = 400
  ∧ (register (register [] none 1 (fun s => s) 0 "Alice" "a@b.c" "Password.1").2
      none 2 (fun s => s) 1 "Bob" "a@b.c" "Xyzabc.A1").2
      = (register [] none 1 (fun s => s) 0 "Alice" "a@b.c" "Password.1").2 := by
  have T := C6_register_unique_email [] (fun s => s) 1 0 "Alice" "a@b.c"
    "Password.1" (by decide) (by decide) (by decide) rfl
  exact ⟨T.1, T.2.1, (T.2.2 none 2 1 "Bob" "Xyzabc.A1").1,
    (T.2.2 none 2 1 "Bob" "Xyzabc.A1").2⟩

/-- `logActivity` never propagates an exception: both its `if (error)`
branch and its `catch` branch only log to the console. -/
theorem logActivity_throws_none (acts : List ActivityRow)
    (o : Except String (Option String)) (n u : Nat) (a : String)
    (i : Option Nat) (t : Nat) (d : String) :
    (logActivity acts o n u a i t d).2 = none := by
  rcases o with e | v
  · rfl
  · cases v <;> rfl

/-- C7: the response (status and body) of the image-generation handler and
of the image-deletion handler is the same whatever the outcome of the
activity-log insert — promise rejection, returned error object (e.g.
missing `activities` table), or success. -/
theorem C7_logActivity_failure_invisible (images : List ImageRow)
    (acts : List ActivityRow) (colabOk : Bool) (colabStatus : Nat)
    (uploadErr : Option String) (publicUrl : String → String)
    (dbInsert : Except String Nat) (activityId now userId : Nat)
    (prompt : String) (storageErr dbDeleteErr : Option String) (imageId : Nat)
    (o1 o2 : Except String (Option String)) :
    (generateImage images acts colabOk colabStatus uploadErr publicUrl
        dbInsert o1 activityId now userId prompt).1
      = (generateImage images acts colabOk colabStatus uploadErr publicUrl
        dbInsert o2 activityId now userId prompt).1
  ∧ (deleteImage images acts storageErr dbDeleteErr o1 activityId now userId
        imageId).1
      = (deleteImage images acts storageErr dbDeleteErr o2 activityId now
        userId imageId).1 := by
  constructor
  · by_cases hp : prompt = ""
    · simp [generateImage, hp]
    · cases colabOk with
      | false => simp [generateImage, hp]
      | true =>
        cases uploadErr with
        | some e => simp [generateImage, hp]
        | none =>
          cases dbInsert with
          | error e => simp [generateImage, hp]
          | ok newId =>
            rcases o1 with e1 | (_ | m1) <;> rcases o2 with e2 | (_ | m2) <;>
              simp [generateImage, hp, logActivity]
  · rcases hs : singleResult images (fun r => r.id == imageId && r.user_id == userId)
      with ⟨d, derr⟩
    cases derr with
    | some e => simp [deleteImage, hs]
    | none =>
      cases d with
      | none => simp [deleteImage, hs]
      | some image =>
        cases dbDeleteErr with
        | some e => simp [deleteImage, hs]
        | none =>
          rcases o1 with e1 | (_ | m1) <;> rcases o2 with e2 | (_ | m2) <;>
            simp [deleteImage, hs, logActivity]

/-- C8: `POST /api/activities/log` with a non-empty action answers 200
`success: true` whatever the outcome of the activities insert — its 500
branch is unreachable because `logActivity` never throws — and a missing
or empty action is the only error, a 400. -/
theorem C8_activities_log_endpoint (acts : List ActivityRow)
    (o o2 : Except String (Option String)) (newId now userId : Nat)
    (imageId : Option Nat) (ad action : String) :
    (action ≠ "" →
      (postActivityLog acts o newId now userId action imageId ad).1
        = ⟨200, LogBody.ok true "Activity logged successfully"⟩)
  ∧ (postActivityLog acts o newId now userId action imageId ad).1
      = (postActivityLog acts o2 newId now userId action imageId ad).1
  ∧ (action = "" →
      (postActivityLog acts o newId now userId action imageId ad).1
        = ⟨400, LogBody.badRequest "Action is required"⟩) := by
  by_cases ha : action = ""
  · refine ⟨fun hne => absurd ha hne, ?_, fun _ => ?_⟩ <;>
      simp [postActivityLog, ha]
  · refine ⟨fun _ => ?_, ?_, fun hcon => absurd hcon ha⟩
    · rcases o with e | (_ | m) <;> simp [postActivityLog, logActivity, ha]
    · rcases o with e | (_ | m) <;> rcases o2 with e2 | (_ | m2) <;>
        simp [postActivityLog, logActivity, ha]

/-- Witness for C8: a `download` log request answers 200 both when the
insert fails and when it succeeds; an empty action answers 400. -/
theorem C8_activities_log_endpoint_witness :
    (postActivityLog [] (Except.error "network down") 1 0 7 "download" none "").1
      = ⟨200, LogBody.ok true "Activity logged successfully"⟩
  ∧ (postActivityLog [] (Except.error "network down") 1 0 7 "download" none "").1
      = (postActivityLog [] (Except.ok none) 1 0 7 "download" none "").1
  ∧ (postActivityLog [] (Except.ok none) 1 0 7 "" none "").1
      = ⟨400, LogBody.badRequest "Action is required"⟩ := by
  refine ⟨?_, ?_, ?_⟩
  · exact (C8_activities_log_endpoint [] (Except.error "network down")
      (Except.ok none) 1 0 7 none "" "download").1 (by decide)
  · exact (C8_activities_log_endpoint [] (Except.error "network down")
      (Except.ok none) 1 0 7 none "" "download").2.1
  · exact (C8_activities_log_endpoint [] (Except.ok none)
      (Except.ok none) 1 0 7 none "" "").2.2 rfl

/-- C9: the pagination metadata of `GET /api/admin/users` is computed from
the unfiltered row count of the `users` table: it is identical for any two
search strings, and its `totalUsers` is the full table size. -/
theorem C9_admin_pagination_ignores_search (usersTable : List UserRow)
    (page limit : Nat) (s1 s2 : String) (us1 us2 : List PubUser)
    (pag1 pag2 : AdminPagination)
    (h1 : (adminUsers usersTable none page limit s1).body
      = AdminUsersBody.ok us1 pag1)
    (h2 : (adminUsers usersTable none page limit s2).body
      = AdminUsersBody.ok us2 pag2) :
    pag1 = pag2 ∧ pag1.totalUsers = usersTable.length := by
  simp only [adminUsers, AdminUsersBody.ok.injEq] at h1 h2
  rw [← h1.2, ← h2.2]
  exact ⟨rfl, rfl⟩

/-- Witness for C9: a two-user table queried with search `ali` (one match)
and search `zzz` (no match) reports the same pagination, whose total is
the full table size 2. -/
theorem C9_admin_pagination_ignores_search_witness :
    (AdminPagination.mk 1 1 2 10) = (AdminPagination.mk 1 1 2 10)
  ∧ (AdminPagination.mk 1 1 2 10).totalUsers
      = [UserRow.mk 1 "Alice" "alice@x.y" "H1" "" "" 0 0,
         UserRow.mk 2 "Bob" "bob@x.y" "H2" "" "" 1 1].length := by
  exact C9_admin_pagination_ignores_search
    [UserRow.mk 1 "Alice" "alice@x.y" "H1" "" "" 0 0,
     UserRow.mk 2 "Bob" "bob@x.y" "H2" "" "" 1 1] 1 10 "ali" "zzz"
    [PubUser.mk 1 "Alice" "alice@x.y" "" "" 0 0] [] (AdminPagination.mk 1 1 2 10)
    (AdminPagination.mk 1 1 2 10) (by decide) (by decide)

/-- C10: the `GET /api/activities` response for user `U` depends only on
the activities rows whose `user_id` is `U` — listed rows and pagination
count alike: two tables agreeing on `U`'s rows yield identical
responses. -/
theorem C10_activities_scoped_to_caller (acts1 acts2 : List ActivityRow)
    (imagesTable : List ImageRow) (tableErr : Option String)
    (userId page limit : Nat) (action : String)
    (h : acts1.filter (fun a => a.user_id == userId)
      = acts2.filter (fun a => a.user_id == userId)) :
    getActivities acts1 imagesTable tableErr userId page limit action
      = getActivities acts2 imagesTable tableErr userId page limit action := by
  cases tableErr with
  | some e => rfl
  | none =>
    simp only [getActivities]
    rw [h]

/-- Witness for C10: two activities tables sharing user 1's single row but
differing in other users' rows produce the same response for user 1. -/
theorem C10_activities_scoped_to_caller_witness :
    getActivities [⟨1, 1, "generate", none, 5, ""⟩, ⟨2, 2, "delete", none, 6, ""⟩]
      [] none 1 1 20 ""
    = getActivities [⟨1, 1, "generate", none, 5, ""⟩, ⟨3, 9, "view", none, 7, ""⟩]
      [] none 1 1 20 "" := by
  exact C10_activities_scoped_to_caller
    [⟨1, 1, "generate", none, 5, ""⟩, ⟨2, 2, "delete", none, 6, ""⟩]
    [⟨1, 1, "generate", none, 5, ""⟩, ⟨3, 9, "view", none, 7, ""⟩]
    [] none 1 1 20 "" (by decide)
